import Mathlib

/-!
Verification development for the airfine CLI's provider abstraction and
dispatch layer (src/setup.ts, src/providers/{index,openai,claude,gemini}.ts,
src/transform.ts).

Strings are modelled as `List Char` (`Str`) so that every operation is a
structurally recursive, kernel-evaluable function.  JavaScript string
operations used by the source are re-implemented faithfully:
`trim` (over the ASCII whitespace set), `startsWith`, `.replace` with a
string pattern (first occurrence only), truthiness (`s` is truthy iff
non-empty), `a || b` on strings and optionals, and `Array.prototype.sort()`
(lexicographic by code unit; modelled by insertion sort, which produces the
same sorted permutation).  Network calls are modelled by passing the vendor
response — or the thrown transport error — as an explicit
`Except` argument.
-/

namespace Airfine

/-- Strings of the modelled program: lists of characters. -/
abbrev Str : Type := List Char

/-- Lexicographic comparison by code unit, the order used by
JavaScript `Array.prototype.sort()` on strings. -/
def strLe : Str → Str → Bool
  | [], _ => true
  | _ :: _, [] => false
  | a :: as, b :: bs => if a < b then true else if b < a then false else strLe as bs

/-- `strLe` as a proposition, for use with Mathlib's sorting lemmas. -/
def strLeP (a b : Str) : Prop := strLe a b = true

instance : DecidableRel strLeP := fun _ _ => instDecidableEqBool _ _

/-- JavaScript `Array.prototype.sort()` with the default (lexicographic)
comparator: the sorted permutation of the input. -/
def sortStrs (l : List Str) : List Str := List.insertionSort strLeP l

/-- ASCII whitespace, the subset of the JavaScript `trim` character class
relevant to this program. -/
def isWs (c : Char) : Bool := c = ' ' || c = '\t' || c = '\n' || c = '\r'

/-- JavaScript `String.prototype.trim`. -/
def jsTrim (s : Str) : Str := ((s.dropWhile isWs).reverse.dropWhile isWs).reverse

/-- JavaScript `String.prototype.startsWith`. -/
def startsWith (s pat : Str) : Bool := List.isPrefixOf pat s

/-- JavaScript `String.prototype.replace` with a string pattern: replaces
only the first occurrence. -/
def replaceFirst (pat sub : Str) : Str → Str
  | [] => if List.isPrefixOf pat ([] : Str) then sub else []
  | c :: rest =>
    if List.isPrefixOf pat (c :: rest) then sub ++ (c :: rest).drop pat.length
    else c :: replaceFirst pat sub rest

/-- JavaScript truthiness of an optional string (`undefined`, `null` and
`''` are falsy). -/
def optTruthy : Option Str → Bool
  | none => false
  | some s => !s.isEmpty

/-- JavaScript `a || b` where `a` is an optional string. -/
def jsOr (a : Option Str) (b : Str) : Str :=
  match a with
  | some s => if s.isEmpty then b else s
  | none => b

/-- JavaScript `x || null` on an optional string result. -/
def jsOrNull : Option Str → Option Str
  | some t => if t.isEmpty then none else some t
  | none => none

/-- `defaultModels` block of the configuration (src/setup.ts `Config`). -/
structure DefaultModels where
  openai : Option Str := none
  claude : Option Str := none
  gemini : Option Str := none
deriving DecidableEq

/-- Configuration loaded from `config.json` (src/setup.ts `Config`). -/
structure Config where
  openaiApiKey : Option Str := none
  claudeApiKey : Option Str := none
  geminiApiKey : Option Str := none
  defaultProvider : Option Str := none
  defaultModels : Option DefaultModels := none
deriving DecidableEq

/-- The closed set of provider kinds. -/
inductive ProviderKind where
  | openai
  | claude
  | gemini
deriving DecidableEq

/-- A constructed backend: bound to one credential and the configuration it
was constructed with (each provider class stores `apiKey` and `config`). -/
structure Provider where
  kind : ProviderKind
  apiKey : Str
  config : Config
deriving DecidableEq

/-- `OpenAIProvider.getDefaultModel`:
`this.config.defaultModels?.openai || 'gpt-4o'`. -/
def openaiDefaultModel (config : Config) : Str :=
  jsOr (config.defaultModels.bind DefaultModels.openai) "gpt-4o".data

/-- `ClaudeProvider.getDefaultModel`:
`this.config.defaultModels?.claude || 'claude-3-7-sonnet-latest'`. -/
def claudeDefaultModel (config : Config) : Str :=
  jsOr (config.defaultModels.bind DefaultModels.claude) "claude-3-7-sonnet-latest".data

/-- `GeminiProvider.getDefaultModel`:
`this.config.defaultModels?.gemini || 'gemini-2.0-flash'`. -/
def geminiDefaultModel (config : Config) : Str :=
  jsOr (config.defaultModels.bind DefaultModels.gemini) "gemini-2.0-flash".data

/-- Dispatch of `getDefaultModel` over the provider kind. -/
def Provider.getDefaultModel (p : Provider) : Str :=
  match p.kind with
  | .openai => openaiDefaultModel p.config
  | .claude => claudeDefaultModel p.config
  | .gemini => geminiDefaultModel p.config

/-- `createProvider` (src/providers/index.ts): the backend, if constructed,
paired with the diagnostics written to `console.error`. -/
def createProvider (providerName : Str) (config : Config) :
    Option Provider × List Str :=
  if providerName = "openai".data then
    if optTruthy config.openaiApiKey then
      (some ⟨.openai, config.openaiApiKey.getD [], config⟩, [])
    else
      (none, ["OpenAI API key not found. Run `airfine setup` to configure.".data])
  else if providerName = "claude".data then
    if optTruthy config.claudeApiKey then
      (some ⟨.claude, config.claudeApiKey.getD [], config⟩, [])
    else
      (none, ["Claude API key not found. Run `airfine setup` to configure.".data])
  else if providerName = "gemini".data then
    if optTruthy config.geminiApiKey then
      (some ⟨.gemini, config.geminiApiKey.getD [], config⟩, [])
    else
      (none, ["Gemini API key not found. Run `airfine setup` to configure.".data])
  else
    (none, ["Unknown provider: ".data ++ providerName])

/-- `getModelSuggestions` (src/providers/index.ts). -/
def getModelSuggestions (provider : Str) : List Str :=
  if provider = "openai".data then
    ["gpt-4o".data, "gpt-4o-mini".data, "o1".data, "o1-mini".data, "o3-mini".data]
  else if provider = "claude".data then
    ["claude-3-7-sonnet-latest".data, "claude-3-5-sonnet-latest".data,
     "claude-3-5-haiku-latest".data]
  else if provider = "gemini".data then
    ["gemini-2.0-flash".data, "gemini-2.0-flash-lite".data, "gemini-1.5-pro".data]
  else
    []

/-- Truthiness of `context && context.trim()`, the guard all three backends
use before adding context content to the request. -/
def contextTruthy : Option Str → Bool
  | none => false
  | some s => !s.isEmpty && !(jsTrim s).isEmpty

/-- One chat message of the OpenAI request body. -/
structure OpenAIMsg where
  role : Str
  content : Str
deriving DecidableEq

/-- The OpenAI request body built by `OpenAIProvider.transform`. -/
structure OpenAIRequest where
  model : Str
  messages : List OpenAIMsg
  temperature : Option ℚ
deriving DecidableEq

/-- Request construction of `OpenAIProvider.transform`
(src/providers/openai.ts): optional developer-role context message, user
prompt, temperature 0.7 omitted for model identifiers starting with `o`. -/
def openaiBuildRequest (config : Config) (prompt : Str) (context : Option Str)
    (model : Str) : OpenAIRequest :=
  let modelToUse := if model.isEmpty then openaiDefaultModel config else model
  let contextMsgs : List OpenAIMsg :=
    if contextTruthy context then [⟨"developer".data, context.getD []⟩] else []
  { model := modelToUse
    messages := contextMsgs ++ [⟨"user".data, prompt⟩]
    temperature := if startsWith modelToUse "o".data then none else some (7 / 10) }

/-- Result extraction of `OpenAIProvider.transform`:
`response.choices[0]?.message?.content || null`.  The argument is the
(optional) content field of the vendor response. -/
def openaiExtract (content : Option Str) : Option Str := jsOrNull content

/-- `OpenAIProvider.transform` as a whole, with the network call modelled by
the vendor response or the thrown transport error. -/
def openaiTransform (resp : Except Str (Option Str)) : Except Str (Option Str) :=
  match resp with
  | .error e => .error e
  | .ok content => .ok (openaiExtract content)

/-- The Claude request body built by `ClaudeProvider.transform`
(src/providers/claude.ts). -/
structure ClaudeRequest where
  model : Str
  maxTokens : ℕ
  content : Str
  temperature : ℚ
deriving DecidableEq

/-- Request construction of `ClaudeProvider.transform`: with context the
single user message is `<context>…</context>\n\n` followed by the prompt,
otherwise the bare prompt. -/
def claudeBuildRequest (config : Config) (prompt : Str) (context : Option Str)
    (model : Str) : ClaudeRequest :=
  { model := if model.isEmpty then claudeDefaultModel config else model
    maxTokens := 4096
    content :=
      if contextTruthy context then
        "<context>".data ++ context.getD [] ++ "</context>\n\n".data ++ prompt
      else prompt
    temperature := 7 / 10 }

/-- One block of the Claude response `content` array. -/
inductive ClaudeBlock where
  | text (s : Str)
  | other
deriving DecidableEq

/-- The text of a block, when it is a text block (models
`filter(type === 'text').map(item.text)`). -/
def claudeBlockText : ClaudeBlock → Option Str
  | .text s => some s
  | .other => none

/-- Result extraction of `ClaudeProvider.transform`: text blocks joined with
newlines; `null` when the array is empty or the joined text is empty. -/
def claudeExtract (content : List ClaudeBlock) : Option Str :=
  if content.length > 0 then
    jsOrNull (some (List.intercalate "\n".data (content.filterMap claudeBlockText)))
  else none

/-- `ClaudeProvider.transform` as a whole; its `catch` logs and rethrows, so
a transport error stays an error. -/
def claudeTransform (resp : Except Str (List ClaudeBlock)) : Except Str (Option Str) :=
  match resp with
  | .error e => .error e
  | .ok content => .ok (claudeExtract content)

/-- One history entry of the Gemini chat options. -/
structure GeminiHistEntry where
  role : Str
  text : Str
deriving DecidableEq

/-- Chat-option construction of `GeminiProvider.transform`
(src/providers/gemini.ts): the `history` field is set only when context is
provided. -/
def geminiChatHistory (context : Option Str) : Option (List GeminiHistEntry) :=
  if contextTruthy context then
    some [⟨"user".data, "<context>".data ++ context.getD [] ++ "</context>".data⟩]
  else none

/-- `GeminiProvider.transform` as a whole: `responseText || null`; its
`catch` logs and rethrows, so a transport error stays an error. -/
def geminiTransform (resp : Except Str Str) : Except Str (Option Str) :=
  match resp with
  | .error e => .error e
  | .ok t => .ok (jsOrNull (some t))

/-- `fetchOpenAIModels` (src/providers/openai.ts): on success, model ids
filtered to the `gpt-`/`o` families and sorted; on any thrown transport
error (including non-2xx and malformed bodies), the empty list. -/
def fetchOpenAIModels (resp : Except Str (List Str)) : List Str :=
  match resp with
  | .error _ => []
  | .ok ids =>
    sortStrs (ids.filter fun id =>
      startsWith id "gpt-".data || startsWith id "o".data)

/-- `fetchClaudeModels` (src/providers/claude.ts): on success, all model ids
sorted (no family filter in the source); on error, the empty list. -/
def fetchClaudeModels (resp : Except Str (List Str)) : List Str :=
  match resp with
  | .error _ => []
  | .ok ids => sortStrs ids

/-- `fetchGeminiModels` (src/providers/gemini.ts): on success, names with a
leading `models/` stripped, filtered to the `gemini-` family and sorted; on
error, the empty list. -/
def fetchGeminiModels (resp : Except Str (List Str)) : List Str :=
  match resp with
  | .error _ => []
  | .ok names =>
    sortStrs (((names.map (replaceFirst "models/".data [])).filter fun name =>
      startsWith name "gemini-".data))

/-- The result map of the batch listing: one optional entry per provider. -/
structure ModelMap where
  openai : Option (List Str)
  claude : Option (List Str)
  gemini : Option (List Str)
deriving DecidableEq

/-- `fetchAvailableModels` (src/transform.ts): one listing per credentialed
provider; the concurrent `Promise.all` join writes each provider's entry
from its own listing call only. -/
def fetchAvailableModels (config : Config)
    (respOpenai respClaude respGemini : Except Str (List Str)) : ModelMap :=
  { openai :=
      if optTruthy config.openaiApiKey then some (fetchOpenAIModels respOpenai)
      else none
    claude :=
      if optTruthy config.claudeApiKey then some (fetchClaudeModels respClaude)
      else none
    gemini :=
      if optTruthy config.geminiApiKey then some (fetchGeminiModels respGemini)
      else none }

/-- `readFromStdin` (src/transform.ts): piped data is trimmed, a TTY
(no piped data, modelled as `none`) resolves to the empty string. -/
def readFromStdin (piped : Option Str) : Str :=
  match piped with
  | some data => jsTrim data
  | none => []

/-- Provider resolution of `transformCommand` (src/transform.ts lines
109–128): `options.provider || config.defaultProvider || ''`, then if that
name is empty or names an uncredentialed provider, the first credentialed
provider in the order openai, claude, gemini (leaving the name unchanged
when no credential is present). -/
def resolveProviderName (provOpt : Option Str) (config : Config) : Str :=
  let providerName := jsOr provOpt (jsOr config.defaultProvider [])
  if providerName.isEmpty
      || (providerName = "openai".data && !optTruthy config.openaiApiKey)
      || (providerName = "claude".data && !optTruthy config.claudeApiKey)
      || (providerName = "gemini".data && !optTruthy config.geminiApiKey) then
    if optTruthy config.openaiApiKey then "openai".data
    else if optTruthy config.claudeApiKey then "claude".data
    else if optTruthy config.geminiApiKey then "gemini".data
    else providerName
  else providerName

/-- The options of the `transform` command that affect the outcome
(`quiet`/`raw`/`beforeAfter` only change console formatting). -/
structure TransformOptions where
  prompt : Option Str := none
  context : Option Str := none
  model : Option Str := none
  provider : Option Str := none
deriving DecidableEq

/-- Terminal outcome of one `transformCommand` invocation.  `noKeysError`
and `providerError` are the configuration-error exits, `noPromptError` the
invalid-input exit, `emptyResult` the "Empty response from API" exit,
`failure` the catch branch carrying the thrown message. -/
inductive Outcome where
  | noKeysError
  | noPromptError
  | providerError
  | success (text : Str)
  | emptyResult
  | failure (msg : Str)
deriving DecidableEq

/-- Outcome of a run together with the backend `transform` invocations
(prompt, context, model) it performed. -/
structure RunResult where
  outcome : Outcome
  calls : List (Str × Option Str × Str)
deriving DecidableEq

/-- The prompt text the orchestrator settles on (src/transform.ts lines
94–101): `options.prompt || ''`, falling back to stdin when empty. -/
def effectivePrompt (options : TransformOptions) (stdinData : Option Str) : Str :=
  let promptText0 := jsOr options.prompt []
  if promptText0.isEmpty then readFromStdin stdinData else promptText0

/-- The single backend invocation and the mapping of its result
(src/transform.ts lines 147–184): a thrown error is the catch branch, a
falsy result (`null` or `''`) the "Empty response" branch. -/
def runBackend (promptText : Str) (contextArg : Option Str) (model : Str)
    (backend : Str → Option Str → Str → Except Str (Option Str)) : RunResult :=
  match backend promptText contextArg model with
  | .error msg => ⟨.failure msg, [(promptText, contextArg, model)]⟩
  | .ok (some t) =>
    if t.isEmpty then ⟨.emptyResult, [(promptText, contextArg, model)]⟩
    else ⟨.success t, [(promptText, contextArg, model)]⟩
  | .ok none => ⟨.emptyResult, [(promptText, contextArg, model)]⟩

/-- Provider construction and invocation (src/transform.ts lines 130–151):
`createProvider` on the resolved name, exit on `null`, else `transform`
with `options.context || null` and `options.model || getDefaultModel()`. -/
def dispatchTransform (options : TransformOptions) (config : Config)
    (promptText : Str)
    (backend : Str → Option Str → Str → Except Str (Option Str)) : RunResult :=
  match (createProvider (resolveProviderName options.provider config) config).1 with
  | none => ⟨.providerError, []⟩
  | some provider =>
    runBackend promptText (jsOrNull options.context)
      (jsOr options.model provider.getDefaultModel) backend

/-- `transformCommand` (src/transform.ts): the orchestrator.  The backend's
network-bound `transform` is modelled by `backend`, mapping the invocation
arguments to the value it returns or the error it throws. -/
def transformCommand (options : TransformOptions) (config : Config)
    (stdinData : Option Str)
    (backend : Str → Option Str → Str → Except Str (Option Str)) : RunResult :=
  if !optTruthy config.openaiApiKey && !optTruthy config.claudeApiKey
      && !optTruthy config.geminiApiKey then
    ⟨.noKeysError, []⟩
  else if (effectivePrompt options stdinData).isEmpty then
    ⟨.noPromptError, []⟩
  else
    dispatchTransform options config (effectivePrompt options stdinData) backend

section OrderLemmas

theorem strLe_total (a b : Str) : strLe a b = true ∨ strLe b a = true := by
  induction a generalizing b with
  | nil => left; rfl
  | cons x xs ih =>
    cases b with
    | nil => right; rfl
    | cons y ys =>
      by_cases h1 : x < y
      · left; simp [strLe, h1]
      · by_cases h2 : y < x
        · right; simp [strLe, h2]
        · rcases ih ys with h | h
          · left; simp [strLe, h1, h2, h]
          · right; simp [strLe, h1, h2, h]

theorem strLe_trans (a b c : Str) (hab : strLe a b = true) (hbc : strLe b c = true) :
    strLe a c = true := by
  induction a generalizing b c with
  | nil => rfl
  | cons x xs ih =>
    cases b with
    | nil => simp [strLe] at hab
    | cons y ys =>
      cases c with
      | nil => simp [strLe] at hbc
      | cons z zs =>
        simp only [strLe] at hab hbc ⊢
        by_cases hxy : x < y
        · by_cases hyz : y < z
          · simp [lt_trans hxy hyz]
          · by_cases hzy : z < y
            · simp [strLe, hyz, hzy] at hbc
            · have : y = z := le_antisymm (not_lt.mp hzy) (not_lt.mp hyz)
              subst this
              simp [hxy]
        · by_cases hyx : y < x
          · simp [hxy, hyx] at hab
          · have hxy' : x = y := le_antisymm (not_lt.mp hyx) (not_lt.mp hxy)
            subst hxy'
            simp only [if_neg hxy, if_neg hyx] at hab
            by_cases hyz : x < z
            · simp [hyz]
            · by_cases hzy : z < x
              · simp [hyz, hzy] at hbc
              · simp only [if_neg hyz, if_neg hzy] at hbc ⊢
                exact ih ys zs hab hbc

instance : IsTotal Str strLeP := ⟨strLe_total⟩

instance : IsTrans Str strLeP := ⟨strLe_trans⟩

theorem sortStrs_sorted (l : List Str) : List.Sorted strLeP (sortStrs l) :=
  List.sorted_insertionSort strLeP l

theorem sortStrs_perm (l : List Str) : (sortStrs l).Perm l :=
  List.perm_insertionSort strLeP l

theorem mem_sortStrs {x : Str} {l : List Str} : x ∈ sortStrs l ↔ x ∈ l :=
  (sortStrs_perm l).mem_iff

end OrderLemmas

section OrchestratorLemmas

theorem runBackend_calls (p : Str) (c : Option Str) (m : Str)
    (bk : Str → Option Str → Str → Except Str (Option Str)) :
    (runBackend p c m bk).calls = [(p, c, m)] := by
  unfold runBackend
  rcases bk p c m with msg | t
  · rfl
  · rcases t with _ | t
    · rfl
    · by_cases h : t.isEmpty = true <;> simp [h]

theorem runBackend_outcome_ne_noPrompt (p : Str) (c : Option Str) (m : Str)
    (bk : Str → Option Str → Str → Except Str (Option Str)) :
    (runBackend p c m bk).outcome ≠ Outcome.noPromptError := by
  unfold runBackend
  rcases bk p c m with msg | t
  · simp
  · rcases t with _ | t
    · simp
    · by_cases h : t.isEmpty = true <;> simp [h]

theorem runBackend_empty (p : Str) (c : Option Str) (m : Str)
    (bk : Str → Option Str → Str → Except Str (Option Str))
    (hb : bk p c m = Except.ok none ∨ bk p c m = Except.ok (some [])) :
    (runBackend p c m bk).outcome = Outcome.emptyResult := by
  unfold runBackend
  rcases hb with h | h <;> simp [h]

theorem transformCommand_noKeys (options : TransformOptions) (config : Config)
    (stdinData : Option Str)
    (backend : Str → Option Str → Str → Except Str (Option Str))
    (hk : (!optTruthy config.openaiApiKey && !optTruthy config.claudeApiKey
      && !optTruthy config.geminiApiKey) = true) :
    transformCommand options config stdinData backend = ⟨Outcome.noKeysError, []⟩ := by
  unfold transformCommand
  rw [if_pos hk]

theorem transformCommand_dispatch (options : TransformOptions) (config : Config)
    (stdinData : Option Str)
    (backend : Str → Option Str → Str → Except Str (Option Str))
    (hk : (!optTruthy config.openaiApiKey && !optTruthy config.claudeApiKey
      && !optTruthy config.geminiApiKey) = false)
    (hp : (effectivePrompt options stdinData).isEmpty = false) :
    transformCommand options config stdinData backend =
      dispatchTransform options config (effectivePrompt options stdinData) backend := by
  unfold transformCommand
  rw [hk, hp]
  simp

end OrchestratorLemmas

section Claims

/-- Configuration exercising the resolver precedence: gemini has no
credential, the configured default provider claude is credentialed, and
openai is credentialed as well. -/
def c1Config : Config :=
  { openaiApiKey := some "sk-openai-test".data
    claudeApiKey := some "sk-claude-test".data
    geminiApiKey := none
    defaultProvider := some "claude".data
    defaultModels := none }

/-- Claim C1 as stated is false: with the override naming the
uncredentialed gemini and the credentialed claude configured as default,
resolution yields openai — the first credentialed provider of the fixed
fallback order — not the configured default claude. -/
theorem c1_counterexample :
    optTruthy c1Config.geminiApiKey = false ∧
    c1Config.defaultProvider = some "claude".data ∧
    optTruthy c1Config.claudeApiKey = true ∧
    resolveProviderName (some "gemini".data) c1Config = "openai".data ∧
    "openai".data ≠ "claude".data := by decide

/-- Claim C1 (amended): when the explicit override names a provider without
a present credential and some credential is present, the configured default
provider is not consulted — resolution yields the first credentialed
provider in the fixed order openai, claude, gemini. -/
theorem c1_override_falls_to_fixed_order (config : Config) (p : Str)
    (hover : (p = "openai".data ∧ optTruthy config.openaiApiKey = false) ∨
             (p = "claude".data ∧ optTruthy config.claudeApiKey = false) ∨
             (p = "gemini".data ∧ optTruthy config.geminiApiKey = false))
    (hsome : optTruthy config.openaiApiKey = true ∨
             optTruthy config.claudeApiKey = true ∨
             optTruthy config.geminiApiKey = true) :
    resolveProviderName (some p) config =
      (if optTruthy config.openaiApiKey then "openai".data
       else if optTruthy config.claudeApiKey then "claude".data
       else "gemini".data) := by
  rcases hover with ⟨rfl, h⟩ | ⟨rfl, h⟩ | ⟨rfl, h⟩ <;>
  · cases hO : optTruthy config.openaiApiKey <;> cases hC : optTruthy config.claudeApiKey <;>
      cases hG : optTruthy config.geminiApiKey <;>
      simp_all [resolveProviderName, jsOr]

/-- Witness for the amended claim C1 at the concrete configuration. -/
theorem c1_override_falls_to_fixed_order_witness :
    resolveProviderName (some "gemini".data) c1Config =
      (if optTruthy c1Config.openaiApiKey then "openai".data
       else if optTruthy c1Config.claudeApiKey then "claude".data
       else "gemini".data) :=
  c1_override_falls_to_fixed_order c1Config "gemini".data
    (Or.inr (Or.inr ⟨rfl, by decide⟩)) (Or.inl (by decide))

/-- Claim C2 as stated is false for the Claude listing: `fetchClaudeModels`
sorts the endpoint's identifiers without any family filter, so a
non-Claude identifier in the response appears in the result. -/
theorem c2_counterexample :
    "zzz-other-model".data ∈
      fetchClaudeModels
        (Except.ok ["zzz-other-model".data, "claude-3-7-sonnet-latest".data]) ∧
    startsWith "zzz-other-model".data "claude".data = false := by decide

/-- Claim C2 (amended): every listing returns `[]` on a transport error;
the OpenAI listing contains only `gpt-`/`o`-prefixed identifiers and is
sorted; the Gemini listing contains only `gemini-`-prefixed identifiers and
is sorted; the Claude listing is the sorted permutation of all identifiers
reported by the endpoint, with no family filter. -/
theorem c2_listing_filter_sort :
    (∀ e, fetchOpenAIModels (Except.error e) = [] ∧
      fetchClaudeModels (Except.error e) = [] ∧
      fetchGeminiModels (Except.error e) = []) ∧
    (∀ ids id, id ∈ fetchOpenAIModels (Except.ok ids) →
      startsWith id "gpt-".data = true ∨ startsWith id "o".data = true) ∧
    (∀ ids, List.Sorted strLeP (fetchOpenAIModels (Except.ok ids))) ∧
    (∀ names id, id ∈ fetchGeminiModels (Except.ok names) →
      startsWith id "gemini-".data = true) ∧
    (∀ names, List.Sorted strLeP (fetchGeminiModels (Except.ok names))) ∧
    (∀ ids, (fetchClaudeModels (Except.ok ids)).Perm ids ∧
      List.Sorted strLeP (fetchClaudeModels (Except.ok ids))) := by
  refine ⟨fun e => ⟨rfl, rfl, rfl⟩, fun ids id hmem => ?_, fun ids => sortStrs_sorted _,
    fun names id hmem => ?_, fun names => sortStrs_sorted _,
    fun ids => ⟨sortStrs_perm _, sortStrs_sorted _⟩⟩
  · simp only [fetchOpenAIModels] at hmem
    have h := List.mem_filter.mp (mem_sortStrs.mp hmem)
    simpa using h.2
  · simp only [fetchGeminiModels] at hmem
    have h := List.mem_filter.mp (mem_sortStrs.mp hmem)
    exact h.2

/-- Witness for the amended claim C2 at a concrete OpenAI listing. -/
theorem c2_listing_filter_sort_witness :
    startsWith "gpt-4o".data "gpt-".data = true ∨
    startsWith "gpt-4o".data "o".data = true :=
  c2_listing_filter_sort.2.1 ["gpt-4o".data] "gpt-4o".data (by decide)

/-- Claim C3: the batch listing has an entry exactly for each credentialed
provider; a listing that fails with a transport error contributes the empty
list for its provider only; each provider's entry depends only on that
provider's own listing response (the listing functions are total, so no
listing throws and no failure propagates to a sibling or the batch). -/
theorem c3_batch_independence (config : Config)
    (rO rC rG rO2 rC2 rG2 : Except Str (List Str)) :
    ((fetchAvailableModels config rO rC rG).openai.isSome =
      optTruthy config.openaiApiKey) ∧
    ((fetchAvailableModels config rO rC rG).claude.isSome =
      optTruthy config.claudeApiKey) ∧
    ((fetchAvailableModels config rO rC rG).gemini.isSome =
      optTruthy config.geminiApiKey) ∧
    (∀ e, rO = Except.error e → (fetchAvailableModels config rO rC rG).openai =
      if optTruthy config.openaiApiKey then some [] else none) ∧
    (∀ e, rC = Except.error e → (fetchAvailableModels config rO rC rG).claude =
      if optTruthy config.claudeApiKey then some [] else none) ∧
    (∀ e, rG = Except.error e → (fetchAvailableModels config rO rC rG).gemini =
      if optTruthy config.geminiApiKey then some [] else none) ∧
    ((fetchAvailableModels config rO rC rG).openai =
      (fetchAvailableModels config rO rC2 rG2).openai) ∧
    ((fetchAvailableModels config rO rC rG).claude =
      (fetchAvailableModels config rO2 rC rG2).claude) ∧
    ((fetchAvailableModels config rO rC rG).gemini =
      (fetchAvailableModels config rO2 rC2 rG).gemini) := by
  refine ⟨?_, ?_, ?_, ?_, ?_, ?_, rfl, rfl, rfl⟩
  · cases h : optTruthy config.openaiApiKey <;> simp [fetchAvailableModels, h]
  · cases h : optTruthy config.claudeApiKey <;> simp [fetchAvailableModels, h]
  · cases h : optTruthy config.geminiApiKey <;> simp [fetchAvailableModels, h]
  · rintro e rfl; simp [fetchAvailableModels, fetchOpenAIModels]
  · rintro e rfl; simp [fetchAvailableModels, fetchClaudeModels]
  · rintro e rfl; simp [fetchAvailableModels, fetchGeminiModels]

/-- Fully credentialed configuration for the batch-listing witness. -/
def c3Config : Config :=
  { openaiApiKey := some "k-openai".data
    claudeApiKey := some "k-claude".data
    geminiApiKey := some "k-gemini".data }

/-- Witness for claim C3: a failing OpenAI listing yields the empty-list
entry for openai in a fully credentialed configuration. -/
theorem c3_batch_independence_witness :
    (fetchAvailableModels c3Config (Except.error "boom".data)
      (Except.ok ["claude-3-haiku".data]) (Except.ok [])).openai =
      (if optTruthy c3Config.openaiApiKey then some [] else none) :=
  (c3_batch_independence c3Config (Except.error "boom".data)
    (Except.ok ["claude-3-haiku".data]) (Except.ok [])
    (Except.ok []) (Except.ok []) (Except.ok [])).2.2.2.1 "boom".data rfl

/-- Claim C4: whenever every backend invocation returns an empty or absent
text value and the orchestrator actually invoked the backend, the outcome
is EmptyResult, never Failure; and each backend's transform maps a
delivered vendor response — the no-content case included — to a returned
value, never a thrown error. -/
theorem c4_empty_result_not_failure :
    (∀ options config stdinData backend,
      (∀ p c m, backend p c m = Except.ok none ∨
        backend p c m = Except.ok (some [])) →
      (transformCommand options config stdinData backend).calls ≠ [] →
      (transformCommand options config stdinData backend).outcome =
        Outcome.emptyResult) ∧
    (∀ content, ∃ r, openaiTransform (Except.ok content) = Except.ok r) ∧
    (∀ blocks, ∃ r, claudeTransform (Except.ok blocks) = Except.ok r) ∧
    (∀ t, ∃ r, geminiTransform (Except.ok t) = Except.ok r) := by
  refine ⟨?_, fun content => ⟨_, rfl⟩, fun blocks => ⟨_, rfl⟩, fun t => ⟨_, rfl⟩⟩
  intro options config stdinData backend hb hcalls
  by_cases hk : (!optTruthy config.openaiApiKey && !optTruthy config.claudeApiKey
      && !optTruthy config.geminiApiKey) = true
  · rw [transformCommand_noKeys _ _ _ _ hk] at hcalls
    exact absurd rfl hcalls
  · rw [Bool.not_eq_true] at hk
    by_cases hp : (effectivePrompt options stdinData).isEmpty = true
    · have hT : transformCommand options config stdinData backend =
          ⟨Outcome.noPromptError, []⟩ := by
        unfold transformCommand
        rw [hk, hp]
        simp
      rw [hT] at hcalls
      exact absurd rfl hcalls
    · rw [Bool.not_eq_true] at hp
      rw [transformCommand_dispatch _ _ _ _ hk hp] at hcalls ⊢
      unfold dispatchTransform at hcalls ⊢
      cases hcp : (createProvider (resolveProviderName options.provider config)
          config).1 with
      | none => rw [hcp] at hcalls; exact absurd rfl hcalls
      | some provider => exact runBackend_empty _ _ _ _ (hb _ _ _)

/-- Options, configuration, and backend for the claim C4 witness. -/
def c4Options : TransformOptions := { prompt := some "hi".data }

/-- Fully credentialed configuration for the claim C4 witness. -/
def c4Config : Config :=
  { openaiApiKey := some "k1".data
    claudeApiKey := some "k2".data
    geminiApiKey := some "k3".data }

/-- A backend whose transform always returns absent text. -/
def c4Backend : Str → Option Str → Str → Except Str (Option Str) :=
  fun _ _ _ => Except.ok none

/-- Witness for claim C4: with a no-content backend and a real invocation,
the concrete run reports EmptyResult. -/
theorem c4_empty_result_not_failure_witness :
    (transformCommand c4Options c4Config none c4Backend).outcome =
      Outcome.emptyResult :=
  c4_empty_result_not_failure.1 c4Options c4Config none c4Backend
    (fun _ _ _ => Or.inl rfl) (by decide)

/-- Claim C5: with context absent or whitespace-only, the OpenAI request
carries only the user message, the Claude message body is the bare prompt,
and the Gemini chat is started without history. -/
theorem c5_no_context_content (config : Config) (prompt model : Str)
    (context : Option Str)
    (hctx : context = none ∨ ∃ s, context = some s ∧ jsTrim s = []) :
    (openaiBuildRequest config prompt context model).messages =
      [⟨"user".data, prompt⟩] ∧
    (claudeBuildRequest config prompt context model).content = prompt ∧
    geminiChatHistory context = none := by
  have hct : contextTruthy context = false := by
    rcases hctx with h | ⟨s, rfl, hs⟩
    · simp [h, contextTruthy]
    · simp [contextTruthy, hs]
  simp [openaiBuildRequest, claudeBuildRequest, geminiChatHistory, hct]

/-- Witness for claim C5 at a whitespace-only context. -/
theorem c5_no_context_content_witness :
    (openaiBuildRequest {} "p".data (some "  ".data) "m".data).messages =
      [⟨"user".data, "p".data⟩] ∧
    (claudeBuildRequest {} "p".data (some "  ".data) "m".data).content =
      "p".data ∧
    geminiChatHistory (some "  ".data) = none :=
  c5_no_context_content {} "p".data "m".data (some "  ".data)
    (Or.inr ⟨"  ".data, rfl, by decide⟩)

/-- Claim C6: the OpenAI request carries temperature 0.7 exactly when the
model identifier in use (the explicit one, or the default when the explicit
one is empty) does not start with the letter o, and omits the field exactly
when it does. -/
theorem c6_temperature_iff (config : Config) (prompt : Str)
    (context : Option Str) (model : Str) :
    ((openaiBuildRequest config prompt context model).temperature =
        some (7 / 10 : ℚ) ↔
      startsWith (if model.isEmpty then openaiDefaultModel config else model)
        "o".data = false) ∧
    ((openaiBuildRequest config prompt context model).temperature = none ↔
      startsWith (if model.isEmpty then openaiDefaultModel config else model)
        "o".data = true) := by
  cases h : startsWith (if model.isEmpty then openaiDefaultModel config else model)
      "o".data <;>
    simp only [openaiBuildRequest] <;> rw [h] <;> simp

/-- Claim C7: an empty prompt (option empty and stdin empty) under a fully
credentialed configuration exits at the invalid-input check with zero
backend invocations; and the no-credentials check fires first — with no
credential the outcome is the configuration error whatever the prompt. -/
theorem c7_input_validation_order :
    (∀ options config stdinData backend,
      optTruthy config.openaiApiKey = true → optTruthy config.claudeApiKey = true →
      optTruthy config.geminiApiKey = true →
      jsOr options.prompt [] = [] → readFromStdin stdinData = [] →
      transformCommand options config stdinData backend =
        ⟨Outcome.noPromptError, []⟩) ∧
    (∀ options config stdinData backend,
      optTruthy config.openaiApiKey = false →
      optTruthy config.claudeApiKey = false →
      optTruthy config.geminiApiKey = false →
      transformCommand options config stdinData backend =
        ⟨Outcome.noKeysError, []⟩) := by
  constructor
  · intro options config stdinData backend hO hC hG hp hstdin
    have hep : effectivePrompt options stdinData = [] := by
      simp [effectivePrompt, hp, hstdin]
    unfold transformCommand
    rw [hO, hC, hG, hep]
    simp
  · intro options config stdinData backend hO hC hG
    exact transformCommand_noKeys _ _ _ _ (by simp [hO, hC, hG])

/-- Fully credentialed configuration for the claim C7 witness. -/
def c7Config : Config :=
  { openaiApiKey := some "ko".data
    claudeApiKey := some "kc".data
    geminiApiKey := some "kg".data }

/-- A backend with a fixed reply for the claim C7 witness (it shows the
invocation never happens). -/
def c7Backend : Str → Option Str → Str → Except Str (Option Str) :=
  fun _ _ _ => Except.ok (some "reply".data)

/-- Witness for claim C7: no prompt option, TTY stdin, full credentials. -/
theorem c7_input_validation_order_witness :
    transformCommand {} c7Config none c7Backend = ⟨Outcome.noPromptError, []⟩ :=
  c7_input_validation_order.1 {} c7Config none c7Backend rfl rfl rfl rfl rfl

/-- Claim C8: `createProvider` yields a backend exactly when the named
provider's credential is truthy; a missing credential yields absent plus
the provider-specific diagnostic; an unrecognized identifier yields absent
plus the unknown-provider diagnostic.  The function is total, so it never
throws. -/
theorem c8_createProvider_iff (config : Config) (name : Str) :
    ((createProvider "openai".data config).1.isSome =
      optTruthy config.openaiApiKey) ∧
    ((createProvider "claude".data config).1.isSome =
      optTruthy config.claudeApiKey) ∧
    ((createProvider "gemini".data config).1.isSome =
      optTruthy config.geminiApiKey) ∧
    (optTruthy config.openaiApiKey = false →
      createProvider "openai".data config =
        (none, ["OpenAI API key not found. Run `airfine setup` to configure.".data])) ∧
    (optTruthy config.claudeApiKey = false →
      createProvider "claude".data config =
        (none, ["Claude API key not found. Run `airfine setup` to configure.".data])) ∧
    (optTruthy config.geminiApiKey = false →
      createProvider "gemini".data config =
        (none, ["Gemini API key not found. Run `airfine setup` to configure.".data])) ∧
    (name ≠ "openai".data → name ≠ "claude".data → name ≠ "gemini".data →
      createProvider name config = (none, ["Unknown provider: ".data ++ name])) := by
  refine ⟨?_, ?_, ?_, ?_, ?_, ?_, fun h1 h2 h3 => ?_⟩
  · cases h : optTruthy config.openaiApiKey <;> simp [createProvider, h]
  · cases h : optTruthy config.claudeApiKey <;> simp [createProvider, h]
  · cases h : optTruthy config.geminiApiKey <;> simp [createProvider, h]
  · intro h; simp [createProvider, h]
  · intro h; simp [createProvider, h]
  · intro h; simp [createProvider, h]
  · simp [createProvider, h1, h2, h3]

/-- Configuration for the claim C8 witness. -/
def c8Config : Config := { openaiApiKey := some "k8".data }

/-- Witness for claim C8 at an unrecognized provider identifier. -/
theorem c8_createProvider_iff_witness :
    createProvider "mistral".data c8Config =
      (none, ["Unknown provider: ".data ++ "mistral".data]) :=
  (c8_createProvider_iff c8Config "mistral".data).2.2.2.2.2.2
    (by decide) (by decide) (by decide)

/-- Claim C9: the openai suggestions are exactly the five listed models,
and every identifier outside the closed provider set maps to the empty
list. -/
theorem c9_model_suggestions (s : Str) :
    getModelSuggestions "openai".data =
      ["gpt-4o".data, "gpt-4o-mini".data, "o1".data, "o1-mini".data,
       "o3-mini".data] ∧
    (s ≠ "openai".data → s ≠ "claude".data → s ≠ "gemini".data →
      getModelSuggestions s = []) := by
  refine ⟨by decide, fun h1 h2 h3 => ?_⟩
  simp [getModelSuggestions, h1, h2, h3]

/-- Witness for claim C9 at an identifier outside the closed set. -/
theorem c9_model_suggestions_witness : getModelSuggestions "mistral".data = [] :=
  (c9_model_suggestions "mistral".data).2 (by decide) (by decide) (by decide)

/-- Claim C10: a non-empty prompt option — even whitespace-only — passes
the emptiness check untouched: the outcome is never the invalid-input
error, every backend invocation receives exactly that prompt text, and
only stdin-sourced prompt text is trimmed. -/
theorem c10_whitespace_prompt_passthrough (options : TransformOptions)
    (config : Config) (stdinData : Option Str)
    (backend : Str → Option Str → Str → Except Str (Option Str)) (s : Str)
    (hp : options.prompt = some s) (hs : s ≠ [])
    (hkey : optTruthy config.openaiApiKey = true ∨
            optTruthy config.claudeApiKey = true ∨
            optTruthy config.geminiApiKey = true) :
    (transformCommand options config stdinData backend).outcome ≠
      Outcome.noPromptError ∧
    (∀ call ∈ (transformCommand options config stdinData backend).calls,
      call.1 = s) ∧
    (∀ t, readFromStdin (some t) = jsTrim t) := by
  have hk : (!optTruthy config.openaiApiKey && !optTruthy config.claudeApiKey
      && !optTruthy config.geminiApiKey) = false := by
    rcases hkey with h | h | h <;> simp [h]
  have hse : s.isEmpty = false := by
    cases s with
    | nil => exact absurd rfl hs
    | cons a l => rfl
  have hep : effectivePrompt options stdinData = s := by
    simp [effectivePrompt, hp, jsOr, hse]
  have hT : transformCommand options config stdinData backend =
      dispatchTransform options config s backend := by
    rw [transformCommand_dispatch _ _ _ _ hk (by rw [hep]; exact hse), hep]
  rw [hT]
  unfold dispatchTransform
  cases hcp : (createProvider (resolveProviderName options.provider config)
      config).1 with
  | none => exact ⟨by simp, by simp, fun t => rfl⟩
  | some provider =>
    refine ⟨runBackend_outcome_ne_noPrompt _ _ _ _, ?_, fun t => rfl⟩
    intro call hc
    have hc2 : call ∈ (runBackend s (jsOrNull options.context)
        (jsOr options.model provider.getDefaultModel) backend).calls := hc
    rw [runBackend_calls, List.mem_singleton] at hc2
    rw [hc2]

/-- Options with a single-space prompt for the claim C10 witness. -/
def c10Options : TransformOptions := { prompt := some " ".data }

/-- Credentialed configuration for the claim C10 witness. -/
def c10Config : Config := { claudeApiKey := some "k10".data }

/-- A backend returning fixed non-empty text for the claim C10 witness. -/
def c10Backend : Str → Option Str → Str → Except Str (Option Str) :=
  fun _ _ _ => Except.ok (some "ok".data)

/-- Witness for claim C10: a single-space prompt with full credentials. -/
theorem c10_whitespace_prompt_passthrough_witness :
    (transformCommand c10Options c10Config none c10Backend).outcome ≠
      Outcome.noPromptError ∧
    (∀ call ∈ (transformCommand c10Options c10Config none c10Backend).calls,
      call.1 = " ".data) ∧
    (∀ t, readFromStdin (some t) = jsTrim t) :=
  c10_whitespace_prompt_passthrough c10Options c10Config none c10Backend
    " ".data rfl (by decide) (Or.inr (Or.inl (by decide)))

end Claims

end Airfine
